import Mathlib

/-!
Verification of the phaseII-todo authentication and todo subsystem.

Shallow embedding conventions used throughout this development:
* Byte strings (Python `bytes`, the UTF-8 encoding of a secret) are `List Nat`.
* Timestamps (`time.time()`, `datetime.utcnow()`) are `Int` seconds; the code
  only compares and subtracts timestamps, so integer granularity is faithful.
* Opaque identifiers (UUIDs) are `Nat`; `UUID(s)` parsing of a string subject
  claim is modelled by decimal parsing `String.toNat?`.
* Fallible Python code (a function that may raise) returns `Except`.
-/

namespace PhaseTodo

/-! ## Idealized bcrypt primitive

The `bcrypt` package is an external dependency of the repository.  It is
modelled as an ideal (collision-free) salted hash: `bcrypt.hashpw` records the
salt together with the first 72 bytes of its input (the bcrypt algorithm
silently truncates inputs at 72 bytes), and `bcrypt.checkpw` re-hashes the
candidate under the digest's salt and compares — which for the ideal hash is
exactly comparison of the truncated byte strings.  A digest that is not a
well-formed bcrypt hash makes `checkpw` raise `ValueError` (modelled as
`Except.error`).  `passlib`'s `CryptContext(schemes=["bcrypt"]).verify`
(used in `models.py`) has the same behaviour on bcrypt digests and likewise
raises on malformed digests.
-/

/-- A stored digest: either a well-formed bcrypt hash (salt plus the hashed,
72-byte-truncated key material of the ideal hash) or an arbitrary string that
bcrypt cannot parse. -/
inductive Digest where
  | bcrypt (salt : Nat) (key : List Nat)
  | malformed (raw : String)
deriving DecidableEq

/-- Ideal model of `bcrypt.hashpw(password, gensalt())`: bcrypt itself
truncates its input to 72 bytes. -/
def bcrypt_hashpw (password : List Nat) (salt : Nat) : Digest :=
  .bcrypt salt (password.take 72)

/-- Ideal model of `bcrypt.checkpw(password, digest)`: re-hash under the
digest's salt and compare; raises `ValueError` on a malformed digest. -/
def bcrypt_checkpw (password : List Nat) : Digest → Except String Bool
  | .bcrypt _ key => .ok (decide (password.take 72 = key))
  | .malformed _ => .error "ValueError: Invalid salt"

/-! ## Credential Hasher (src/backend/app/auth.py lines 309-353)

`hash_password` / `verify_password` truncate the UTF-8 encoding of the
password to its first 72 bytes (`password.encode('utf-8')[:72]`) and call
bcrypt.  Note that `verify_password` has no try/except around
`bcrypt.checkpw`, so a malformed stored digest makes it raise. -/

/-- `auth.hash_password`: truncate to 72 bytes, then bcrypt with a fresh salt
(the salt is an explicit parameter here). -/
def hash_password (password : List Nat) (salt : Nat) : Digest :=
  bcrypt_hashpw (password.take 72) salt

/-- `auth.verify_password`: truncate to 72 bytes, then `bcrypt.checkpw`.
No exception handler: a malformed digest propagates bcrypt's `ValueError`. -/
def verify_password (plain_password : List Nat) (hashed_password : Digest) :
    Except String Bool :=
  bcrypt_checkpw (plain_password.take 72) hashed_password

/-! ## Token hashing service (src/backend/app/services/token.py) -/

/-- `token.hash_token`: bcrypt the token bytes (no explicit truncation in the
source; bcrypt's own 72-byte truncation still applies). -/
def hash_token (token : List Nat) (salt : Nat) : Digest :=
  bcrypt_hashpw token salt

/-- `token.verify_token_hash`: `bcrypt.checkpw` wrapped in
`try ... except Exception: return False`, so every error becomes `false`. -/
def verify_token_hash (plain_token : List Nat) (hashed_token : Digest) : Bool :=
  match bcrypt_checkpw plain_token hashed_token with
  | .ok b => b
  | .error _ => false

/-! ## models.py User.hash_password / User.verify_password (lines 131-166)

These truncate `plain_password.encode('utf-8')[:72]`, decode back with
`errors='ignore'`, and call passlib's bcrypt context.  The
decode-then-re-encode step is the identity on the byte sequence whenever the
truncation does not split a multi-byte character (in particular on all ASCII
input); it is modelled as the identity on the 72-byte prefix. -/

/-- `User.hash_password` (static method, models.py). -/
def user_hash_password (plain_password : List Nat) (salt : Nat) : Digest :=
  bcrypt_hashpw (plain_password.take 72) salt

/-- `User.verify_password` (models.py); passlib raises on malformed digests,
so the result is `Except`. -/
def user_verify_password (plain_password : List Nat) (hashed : Digest) :
    Except String Bool :=
  bcrypt_checkpw (plain_password.take 72) hashed

/-! ## Idealized jose JWT primitive

`python-jose` is an external dependency.  A signed token is modelled as its
decoded content: the claim set together with the secret it was signed with.
`jwt.decode(token, secret)` succeeds exactly when the presented string is a
well-formed JWT signed with `secret` (HMAC signature verification under a
collision-free MAC) whose `exp` claim, if present, has not passed — jose
verifies expiry by default (`verify_exp`) and raises `ExpiredSignatureError`
(a `JWTError`) when `exp < now`, with no leeway.  Any other input raises
`JWTError`.  All `JWTError`s are modelled as `none`.  The repository's decode
functions additionally re-check expiry explicitly after `jwt.decode`; that
redundant check is kept exactly as written. -/

/-- The claim set carried by the repository's tokens: `sub`, `exp`, `iat`,
`type` (all produced by `data.copy()` plus the `update` in the mint
functions; a hand-crafted token may omit any of them). -/
structure JwtPayload where
  sub : Option String
  exp : Option Int
  iat : Option Int
  type : Option String
deriving DecidableEq

/-- A well-formed JWT: payload plus signing secret. -/
structure Jwt where
  payload : JwtPayload
  secret : String
deriving DecidableEq

/-- A string presented as a token: either a well-formed JWT or garbage that
no secret can verify. -/
inductive TokenStr where
  | jwt (t : Jwt)
  | garbage (s : String)
deriving DecidableEq

/-- Ideal `jwt.decode(token, secret, algorithms=[ALGORITHM])`: the payload if
the token is well-formed, signed with `secret`, and not expired per jose's
built-in `verify_exp` (which rejects any present `exp` claim with
`exp < now`, even `exp = 0`); otherwise `JWTError`. -/
def jwt_decode (token : TokenStr) (secret : String) (now : Int) :
    Option JwtPayload :=
  match token with
  | .jwt t =>
    if t.secret = secret then
      match t.payload.exp with
      | some e => if e < now then none else some t.payload
      | none => some t.payload
    else none
  | .garbage _ => none

/-- Ideal `jwt.encode(claims, secret, algorithm=ALGORITHM)`. -/
def jwt_encode (payload : JwtPayload) (secret : String) : TokenStr :=
  .jwt ⟨payload, secret⟩

/-! ## Token Service (src/backend/app/auth.py lines 34-210)

Environment defaults from the source; the two signing secrets differ. -/

def SECRET_KEY : String :=
  "0a37b3f5d1e8c2a4f6b9d8e7c5a4f3b20a37b3f5d1e8c2a4f6b9d8e7c5a4f3b2"

def REFRESH_TOKEN_SECRET : String :=
  "1b48c4g6e2f9d3b5g7c0e9f8d6b5g4c31b48c4g6e2f9d3b5g7c0e9f8d6b5g4c3"

def ACCESS_TOKEN_EXPIRE_MINUTES : Int := 30

def REFRESH_TOKEN_EXPIRE_DAYS : Int := 7

/-- A raised `HTTPException`: status code and response detail. -/
structure HTTPError where
  status : Nat
  detail : String
deriving DecidableEq

/-- `auth.create_access_token(data={"sub": sub}, expires_delta)`: expiry is
`now + expires_delta` if given, else `now + 30 minutes`; claims `sub`, `exp`,
`iat`, `type="access"`; signed with `SECRET_KEY`. -/
def create_access_token (sub : String) (expires_delta : Option Int) (now : Int) :
    TokenStr :=
  let expire : Int :=
    match expires_delta with
    | some d => now + d
    | none => now + ACCESS_TOKEN_EXPIRE_MINUTES * 60
  jwt_encode ⟨some sub, some expire, some now, some "access"⟩ SECRET_KEY

/-- `auth.create_refresh_token`: as `create_access_token` but expiry defaults
to `now + 7 days`, `type="refresh"`, signed with `REFRESH_TOKEN_SECRET`. -/
def create_refresh_token (sub : String) (expires_delta : Option Int) (now : Int) :
    TokenStr :=
  let expire : Int :=
    match expires_delta with
    | some d => now + d
    | none => now + REFRESH_TOKEN_EXPIRE_DAYS * 24 * 60 * 60
  jwt_encode ⟨some sub, some expire, some now, some "refresh"⟩ REFRESH_TOKEN_SECRET

/-- The `credentials_exception` raised throughout `decode_access_token` and
`get_current_user`. -/
def credentialsError : HTTPError :=
  ⟨401, "Could not validate credentials"⟩

/-- The exception raised throughout `decode_refresh_token`. -/
def invalidRefreshError : HTTPError :=
  ⟨401, "Invalid refresh token"⟩

/-- `auth.decode_access_token` (lines 79-123): decode under `SECRET_KEY` —
jose's `jwt.decode` verifies signature and expiry, and any `JWTError`
(including `ExpiredSignatureError`) becomes the credentials exception —
then reject if `payload.get("type") != "access"`, then the source's
explicit expiry re-check `if exp and fromtimestamp(exp) < utcnow()`, kept
as written although jose already enforced it (Python's `if exp` skips the
re-check when the claim is absent or `0`). -/
def decode_access_token (token : TokenStr) (now : Int) :
    Except HTTPError JwtPayload :=
  match jwt_decode token SECRET_KEY now with
  | none => .error credentialsError
  | some payload =>
    if payload.type ≠ some "access" then .error credentialsError
    else
      match payload.exp with
      | some e => if e ≠ 0 ∧ e < now then .error credentialsError else .ok payload
      | none => .ok payload

/-- `auth.decode_refresh_token` (lines 161-210): same shape under
`REFRESH_TOKEN_SECRET` (jose verifies signature and expiry) with required
`type="refresh"` and detail "Invalid refresh token". -/
def decode_refresh_token (token : TokenStr) (now : Int) :
    Except HTTPError JwtPayload :=
  match jwt_decode token REFRESH_TOKEN_SECRET now with
  | none => .error invalidRefreshError
  | some payload =>
    if payload.type ≠ some "refresh" then .error invalidRefreshError
    else
      match payload.exp with
      | some e => if e ≠ 0 ∧ e < now then .error invalidRefreshError else .ok payload
      | none => .ok payload

/-! ## Rate Limiter (src/backend/app/services/rate_limiter.py)

`InMemoryRateLimiter.storage` is a Python dict mapping keys to lists of
timestamps; it is modelled as an association list.  The lock makes each call
to a method atomic, so the methods are plain state-passing functions. -/

/-- `storage.get(key)`: first binding of `key` in the association list. -/
def lookupKey : List (String × List Int) → String → Option (List Int)
  | [], _ => none
  | (k, v) :: rest, key => if k = key then some v else lookupKey rest key

/-- `storage[key] = v`: overwrite the binding of `key`, appending a fresh
binding if absent. -/
def setKey : List (String × List Int) → String → List Int → List (String × List Int)
  | [], key, v => [(key, v)]
  | (k, w) :: rest, key, v =>
    if k = key then (key, v) :: rest else (k, w) :: setKey rest key v

/-- `InMemoryRateLimiter.check_rate_limit` (lines 56-111): initialize the key
with `[]` if absent, drop timestamps `≤ now - window_seconds` (the source
keeps `timestamp > cutoff_time`), then admit and record `now` iff the
retained count is below `max_attempts`.  Note the pruned list is written back
to storage even on a denied call. -/
def check_rate_limit (storage : List (String × List Int)) (key : String)
    (max_attempts : Nat) (window_seconds now : Int) :
    Bool × List (String × List Int) :=
  let cutoff_time := now - window_seconds
  let ts := (lookupKey storage key).getD []
  let pruned := ts.filter (fun t => decide (cutoff_time < t))
  if pruned.length < max_attempts then
    (true, setKey storage key (pruned ++ [now]))
  else
    (false, setKey storage key pruned)

/-- `InMemoryRateLimiter.get_retry_after` (lines 113-151): `0` if the key is
absent or has no timestamps, else `max(0, min(storage[key]) + 900 - now)` —
the source hardcodes `window_seconds = 900` ("assume common window of 900
seconds") whatever window the key's admission checks used. -/
def get_retry_after (storage : List (String × List Int)) (key : String)
    (now : Int) : Int :=
  match lookupKey storage key with
  | none => 0
  | some [] => 0
  | some (t :: rest) => max 0 (rest.foldl min t + 900 - now)

/-- `InMemoryRateLimiter.reset` (lines 153-171): drop the key's binding. -/
def reset : List (String × List Int) → String → List (String × List Int)
  | [], _ => []
  | (k, v) :: rest, key => if k = key then rest else (k, v) :: reset rest key

/-- A sequence of `check_rate_limit` calls for one key with a fixed policy
(`max_attempts`, `window_seconds`), threading the storage state. -/
def run_checks (max_attempts : Nat) (window_seconds : Int) (key : String) :
    List Int → List (String × List Int) → List (String × List Int)
  | [], storage => storage
  | now :: rest, storage =>
    run_checks max_attempts window_seconds key rest
      (check_rate_limit storage key max_attempts window_seconds now).2

/-! ## Data model (src/backend/app/models.py) -/

/-- `models.Todo` row. -/
structure Todo where
  id : Nat
  user_id : Nat
  title : String
  description : Option String
  completed : Bool
  priority : String
  created_at : Int
  updated_at : Int
deriving DecidableEq

/-- `models.User` row (authentication-relevant fields). -/
structure UserRec where
  id : Nat
  email : String
  hashed_password : Digest
  name : Option String
  email_verified : Bool
  last_login : Option Int
deriving DecidableEq

/-- `models.Session` row. -/
structure SessionRec where
  id : Nat
  user_id : Nat
  refresh_token_hash : Digest
  expires_at : Int
  created_at : Int
  last_activity : Int
  ip_address : String
  user_agent : String
deriving DecidableEq

/-! ## Todo router (src/backend/app/routers/todos.py)

The database session is modelled as the list of `Todo` rows;
`db.exec(select(Todo).where(Todo.id == todo_id, Todo.user_id == uid)).first()`
is the first row satisfying both filters. -/

/-- The 404 raised by the single-item todo handlers. -/
def todoNotFound : HTTPError :=
  ⟨404, "Todo not found"⟩

/-- The ownership-filtered lookup shared by `get_todo`, `update_todo` and
`delete_todo`: `select(Todo).where(Todo.id == todo_id, Todo.user_id == uid)`
followed by `.first()`. -/
def find_owned_todo (db : List Todo) (todo_id uid : Nat) : Option Todo :=
  db.find? (fun t => decide (t.id = todo_id) && decide (t.user_id = uid))

/-- `get_todo` (lines 248-288): the owned row, or 404 "Todo not found". -/
def get_todo (db : List Todo) (todo_id uid : Nat) : Except HTTPError Todo :=
  match find_owned_todo db todo_id uid with
  | none => .error todoNotFound
  | some t => .ok t

/-- `schemas.TodoUpdate`: every field optional; `model_dump(exclude_unset)`
keeps only the provided ones.  `description` is itself nullable, hence the
nested `Option`. -/
structure TodoUpdate where
  title : Option String
  description : Option (Option String)
  completed : Option Bool
  priority : Option String
deriving DecidableEq

/-- The `setattr` loop of `update_todo` plus `todo.updated_at = utcnow()`. -/
def apply_todo_update (t : Todo) (u : TodoUpdate) (now : Int) : Todo :=
  { t with
    title := u.title.getD t.title
    description := u.description.getD t.description
    completed := u.completed.getD t.completed
    priority := u.priority.getD t.priority
    updated_at := now }

/-- Replace the first element satisfying `p` by `f` of it (the ORM mutates
the fetched row in place). -/
def replaceFirst (p : α → Bool) (f : α → α) : List α → List α
  | [] => []
  | x :: xs => if p x then f x :: xs else x :: replaceFirst p f xs

/-- `update_todo` (lines 326-402): 404 when the ownership-filtered lookup is
empty, else apply the provided fields and persist. -/
def update_todo (db : List Todo) (todo_id uid : Nat) (upd : TodoUpdate)
    (now : Int) : Except HTTPError Todo × List Todo :=
  match find_owned_todo db todo_id uid with
  | none => (.error todoNotFound, db)
  | some t =>
    let t' := apply_todo_update t upd now
    (.ok t',
      replaceFirst (fun x => decide (x.id = todo_id) && decide (x.user_id = uid))
        (fun _ => t') db)

/-- `delete_todo` (lines 421-467): 404 when the ownership-filtered lookup is
empty, else remove the row (204, no body). -/
def delete_todo (db : List Todo) (todo_id uid : Nat) :
    Except HTTPError Unit × List Todo :=
  match find_owned_todo db todo_id uid with
  | none => (.error todoNotFound, db)
  | some _ =>
    (.ok (), db.eraseP (fun t => decide (t.id = todo_id) && decide (t.user_id = uid)))

/-! ## Login endpoint (src/backend/app/routers/auth.py lines 169-220) -/

/-- The uniform 401 of the login handler. -/
def invalidCredentials : HTTPError :=
  ⟨401, "Invalid credentials"⟩

/-- Outcome of the login handler: a `Token` response, a raised
`HTTPException`, or an uncaught exception propagating out of
`user.verify_password` (FastAPI turns that into a 500). -/
inductive LoginResult where
  | ok (access_token : TokenStr) (userId : Nat)
  | http (e : HTTPError)
  | exn (msg : String)
deriving DecidableEq

/-- `login`: look the user up by email
(`select(User).where(User.email == email)` then `.first()`), and raise the
single generic 401 both when no user matches and when
`user.verify_password(password)` is false; on success mint an access token
with `sub = str(user.id)`. -/
def login (users : List UserRec) (email : String) (password : List Nat)
    (now : Int) : LoginResult :=
  match users.find? (fun u => decide (u.email = email)) with
  | none => .http invalidCredentials
  | some user =>
    match user_verify_password password user.hashed_password with
    | .error e => .exn e
    | .ok false => .http invalidCredentials
    | .ok true => .ok (create_access_token (toString user.id) none now) user.id

/-! ## Access Resolver (src/backend/app/dependencies.py) -/

/-- Python truthiness of a token string: the empty string is falsy. -/
def token_is_truthy : TokenStr → Bool
  | .jwt _ => true
  | .garbage s => !s.isEmpty

/-- Truthiness of `Optional[str]`: `None` and `""` are falsy. -/
def py_truthy : Option TokenStr → Bool
  | none => false
  | some t => token_is_truthy t

/-- The token-extraction prelude of `get_current_user` (lines 65-74):
cookie first, header as fallback, `none` when both are falsy. -/
def effective_token (cookie_token header_token : Option TokenStr) :
    Option TokenStr :=
  let token := if py_truthy cookie_token then cookie_token else header_token
  if py_truthy token then token else none

/-- `get_current_user` (lines 26-99): extract a token (cookie first, header
fallback), decode it as an access token, read the `sub` claim, parse it as an
identifier, and resolve it against the user table; every failure raises the
one credentials exception. -/
def get_current_user (cookie_token header_token : Option TokenStr)
    (users : List UserRec) (now : Int) : Except HTTPError UserRec :=
  match effective_token cookie_token header_token with
  | none => .error credentialsError
  | some token =>
    match decode_access_token token now with
    | .error _ => .error credentialsError
    | .ok payload =>
      match payload.sub with
      | none => .error credentialsError
      | some s =>
        match s.toNat? with
        | none => .error credentialsError
        | some uid =>
          match users.find? (fun u => decide (u.id = uid)) with
          | none => .error credentialsError
          | some u => .ok u

/-- `get_current_user_optional` (lines 102-132): `get_current_user` inside
`try ... except HTTPException: return None`. -/
def get_current_user_optional (cookie_token header_token : Option TokenStr)
    (users : List UserRec) (now : Int) : Option UserRec :=
  match get_current_user cookie_token header_token users now with
  | .ok u => some u
  | .error _ => none

/-! ## Session Store rotation -/

/-- Modelled from the spec: `find_by_hash(refresh_token_hash) -> session |
not_found` (§4.3) is not implemented under src/ — only the persisted
`Session` model is (models.py lines 179-269).  Lookup of the session row
whose stored `refresh_token_hash` equals the presented hash. -/
def find_by_hash (store : List SessionRec) (h : Digest) : Option SessionRec :=
  store.find? (fun s => decide (s.refresh_token_hash = h))

/-- Modelled from the spec: `rotate(session_id, new_refresh_token) -> ok`
(§4.2-4.3) is not implemented under src/.  The store "atomically replaces the
session's stored refresh-token hash with the hash of the new refresh token
(same session id, updated expiry/last-activity)": an UPDATE by primary key. -/
def rotate (store : List SessionRec) (session_id : Nat) (new_hash : Digest)
    (new_expires_at now : Int) : List SessionRec :=
  store.map (fun s =>
    if s.id = session_id then
      { s with refresh_token_hash := new_hash
               expires_at := new_expires_at
               last_activity := now }
    else s)

/-! ## Helper lemmas -/

/-- Writing a key and reading it back yields the written value. -/
theorem lookupKey_setKey_self (st : List (String × List Int)) (k : String)
    (v : List Int) : lookupKey (setKey st k v) k = some v := by
  induction st with
  | nil => simp [setKey, lookupKey]
  | cons p rest ih =>
    obtain ⟨k', v'⟩ := p
    by_cases h : k' = k
    · simp [setKey, lookupKey, h]
    · simp [setKey, lookupKey, h, ih]

/-! ## Claim theorems -/

/-- Claim C1: for every authenticated principal and todo id, the single-item
read, update and delete handlers return the very same 404 response
(`todoNotFound`, detail "Todo not found") whenever no row matches the
id+owner filter — which covers both "no todo with that id exists" and "a todo
with that id exists but is owned by a different principal"; the response
value is one and the same constant in both cases, so nothing distinguishes
them (updates and deletes also leave the database unchanged). -/
theorem todo_handlers_not_found_uniform (db : List Todo) (todo_id uid : Nat)
    (upd : TodoUpdate) (now : Int)
    (h : ∀ t ∈ db, ¬(t.id = todo_id ∧ t.user_id = uid)) :
    get_todo db todo_id uid = .error todoNotFound ∧
    update_todo db todo_id uid upd now = (.error todoNotFound, db) ∧
    delete_todo db todo_id uid = (.error todoNotFound, db) := by
  have hf : find_owned_todo db todo_id uid = none := by
    apply List.find?_eq_none.mpr
    intro t ht
    simpa using h t ht
  exact ⟨by simp [get_todo, hf], by simp [update_todo, hf], by simp [delete_todo, hf]⟩

/-- Witness for C1: a database holding a todo with id 1 owned by user 2;
principal 3 requesting todo 1 (the exists-but-other-owner case) gets the
uniform 404 from all three handlers. -/
theorem todo_handlers_not_found_uniform_witness :
    (∀ t ∈ [Todo.mk 1 2 "buy milk" none false "normal" 0 0],
      ¬(t.id = 1 ∧ t.user_id = 3)) ∧
    (get_todo [Todo.mk 1 2 "buy milk" none false "normal" 0 0] 1 3 =
        .error todoNotFound ∧
      update_todo [Todo.mk 1 2 "buy milk" none false "normal" 0 0] 1 3
          ⟨none, none, none, none⟩ 5 =
        (.error todoNotFound, [Todo.mk 1 2 "buy milk" none false "normal" 0 0]) ∧
      delete_todo [Todo.mk 1 2 "buy milk" none false "normal" 0 0] 1 3 =
        (.error todoNotFound, [Todo.mk 1 2 "buy milk" none false "normal" 0 0])) :=
  ⟨by decide,
    todo_handlers_not_found_uniform
      [Todo.mk 1 2 "buy milk" none false "normal" 0 0] 1 3
      ⟨none, none, none, none⟩ 5 (by decide)⟩

/-- Claim C2 (amended): hashing truncates the secret's byte sequence to its
first 72 bytes and verification truncates identically, so
`verify(secret, hash(secret))` is true for every secret; and verification
fails for every secret whose first 72 bytes differ from the original's.
(Secrets agreeing on the first 72 bytes but differing beyond are accepted —
see the counterexample theorem.) -/
theorem verify_password_roundtrip (secret secret' : List Nat) (salt : Nat)
    (h : secret'.take 72 ≠ secret.take 72) :
    verify_password secret (hash_password secret salt) = .ok true ∧
    verify_password secret' (hash_password secret salt) = .ok false := by
  constructor
  · simp [verify_password, hash_password, bcrypt_hashpw, bcrypt_checkpw,
      List.take_take]
  · simp [verify_password, hash_password, bcrypt_hashpw, bcrypt_checkpw,
      List.take_take, h]

/-- Witness for C2: the one-byte secrets `[48]` and `[49]` differ within the
first 72 bytes, so the first verifies against its own hash and the second is
rejected. -/
theorem verify_password_roundtrip_witness :
    ([49].take 72 ≠ ([48] : List Nat).take 72) ∧
    (verify_password [48] (hash_password [48] 0) = .ok true ∧
      verify_password [49] (hash_password [48] 0) = .ok false) :=
  ⟨by decide, verify_password_roundtrip [48] [49] 0 (by decide)⟩

/-- Counterexample to C2 as stated: a 73-byte secret and a mutation of it in
the 73rd byte (hence differing in at least one bit) are distinct, yet the
mutated secret still verifies against the original's hash, because both
truncate to the same first 72 bytes. -/
theorem verify_password_ignores_bytes_past_72 :
    (List.replicate 73 48 : List Nat) ≠ List.replicate 72 48 ++ [49] ∧
    verify_password (List.replicate 72 48 ++ [49])
      (hash_password (List.replicate 73 48) 0) = .ok true := by
  exact ⟨by decide, rfl⟩

/-- Claim C6 (amended): `verify_token_hash` wraps `bcrypt.checkpw` in a
catch-all handler, so on a malformed digest it returns `false` and never
raises; `verify_password` in auth.py has no such handler and propagates
bcrypt's `ValueError` on the same input. -/
theorem verify_token_hash_false_on_malformed (plain : List Nat) (raw : String) :
    verify_token_hash plain (Digest.malformed raw) = false ∧
    verify_password plain (Digest.malformed raw) =
      .error "ValueError: Invalid salt" :=
  ⟨rfl, rfl⟩

/-- Counterexample to C6 as stated: on a digest that is not a well-formed
bcrypt hash, `verify_password` (auth.py, one of the claim's cited verify
operations) does not return a boolean — it propagates bcrypt's
`ValueError`. -/
theorem verify_password_raises_on_malformed :
    verify_password [] (Digest.malformed "not-a-bcrypt-hash") =
      .error "ValueError: Invalid salt" := rfl

/-- Claim C7: every login that fails because the email matches no user, or
because the matched user's stored hash rejects the submitted password,
produces the very same response value: HTTP 401 with detail
"Invalid credentials".  Both cases yield one constant, so the response
carries no information about which case occurred. -/
theorem login_uniform_failure (users : List UserRec) (email : String)
    (password : List Nat) (now : Int)
    (h : users.find? (fun u => decide (u.email = email)) = none ∨
      ∃ u, users.find? (fun u' => decide (u'.email = email)) = some u ∧
        user_verify_password password u.hashed_password = .ok false) :
    login users email password now = .http invalidCredentials := by
  rcases h with h | ⟨u, hu, hv⟩
  · simp [login, h]
  · simp [login, hu, hv]

/-- Witness for C7: a registered user whose stored hash is the bcrypt of
byte `[48]`; submitting password `[49]` exercises the wrong-password branch
and yields the uniform 401. -/
theorem login_uniform_failure_witness :
    (List.find? (fun u => decide (u.email = "a@b.c"))
        [UserRec.mk 1 "a@b.c" (Digest.bcrypt 0 [48]) none false none] = none ∨
      ∃ u, List.find? (fun u' => decide (u'.email = "a@b.c"))
          [UserRec.mk 1 "a@b.c" (Digest.bcrypt 0 [48]) none false none] = some u ∧
        user_verify_password [49] u.hashed_password = .ok false) ∧
    login [UserRec.mk 1 "a@b.c" (Digest.bcrypt 0 [48]) none false none]
      "a@b.c" [49] 7 = .http invalidCredentials :=
  ⟨Or.inr ⟨UserRec.mk 1 "a@b.c" (Digest.bcrypt 0 [48]) none false none,
      by decide, rfl⟩,
    login_uniform_failure
      [UserRec.mk 1 "a@b.c" (Digest.bcrypt 0 [48]) none false none] "a@b.c" [49] 7
      (Or.inr ⟨UserRec.mk 1 "a@b.c" (Digest.bcrypt 0 [48]) none false none,
        by decide, rfl⟩)⟩

/-- Claim C8: after rotating a session to a fresh refresh-token hash, looking
the store up by the hash of the previously issued refresh token finds
nothing — the old token can no longer be redeemed.  The hypotheses are the
spec's own store invariants: the old hash is held only by the rotated session
(refresh-token hashes are never reused across sessions, §3), and the new
token's hash differs from the old (fresh CSPRNG token). -/
theorem rotate_invalidates_old_hash (store : List SessionRec) (sid : Nat)
    (oldHash newHash : Digest) (newExp now : Int)
    (hOwn : ∀ s ∈ store, s.refresh_token_hash = oldHash → s.id = sid)
    (hNe : newHash ≠ oldHash) :
    find_by_hash (rotate store sid newHash newExp now) oldHash = none := by
  apply List.find?_eq_none.mpr
  intro s hs
  simp only [rotate, List.mem_map] at hs
  obtain ⟨s0, hs0, rfl⟩ := hs
  by_cases hid : s0.id = sid
  · simp [hid, hNe]
  · simp only [if_neg hid, decide_eq_true_eq]
    intro hEq
    exact hid (hOwn s0 hs0 hEq)

/-- Witness for C8: a store with one session (id 1) holding the old hash;
rotating session 1 to a fresh hash makes lookup by the old hash fail. -/
theorem rotate_invalidates_old_hash_witness :
    (∀ s ∈ [SessionRec.mk 1 7 (Digest.bcrypt 0 [1]) 100 0 0 "127.0.0.1" "ua"],
      s.refresh_token_hash = Digest.bcrypt 0 [1] → s.id = 1) ∧
    (Digest.bcrypt 1 [2] ≠ Digest.bcrypt 0 [1]) ∧
    find_by_hash
      (rotate [SessionRec.mk 1 7 (Digest.bcrypt 0 [1]) 100 0 0 "127.0.0.1" "ua"]
        1 (Digest.bcrypt 1 [2]) 200 50)
      (Digest.bcrypt 0 [1]) = none :=
  ⟨by decide, by decide,
    rotate_invalidates_old_hash
      [SessionRec.mk 1 7 (Digest.bcrypt 0 [1]) 100 0 0 "127.0.0.1" "ua"]
      1 (Digest.bcrypt 0 [1]) (Digest.bcrypt 1 [2]) 200 50
      (by decide) (by decide)⟩

/-- Claim C3: with `max_attempts = 3` and `window_seconds = 10`, four
admission checks in immediate succession (times within one window of each
other) on a fresh key answer true, true, true, false; the denied fourth call
records no timestamp (the key retains exactly the three admitted times); and
a further call made more than the window after the retained timestamps is
admitted again. -/
theorem check_rate_limit_three_per_ten (key : String) (n1 n2 n3 n4 n5 : Int)
    (h12 : n1 ≤ n2) (h23 : n2 ≤ n3) (h34 : n3 ≤ n4)
    (hwin : n4 < n1 + 10) (hgap : n3 + 10 < n5) :
    check_rate_limit [] key 3 10 n1 = (true, [(key, [n1])]) ∧
    check_rate_limit [(key, [n1])] key 3 10 n2 = (true, [(key, [n1, n2])]) ∧
    check_rate_limit [(key, [n1, n2])] key 3 10 n3 =
      (true, [(key, [n1, n2, n3])]) ∧
    check_rate_limit [(key, [n1, n2, n3])] key 3 10 n4 =
      (false, [(key, [n1, n2, n3])]) ∧
    (check_rate_limit [(key, [n1, n2, n3])] key 3 10 n5).1 = true := by
  have k1 : n2 - 10 < n1 := by omega
  have k2 : n3 - 10 < n1 := by omega
  have k3 : n3 - 10 < n2 := by omega
  have k4 : n4 - 10 < n1 := by omega
  have k5 : n4 - 10 < n2 := by omega
  have k6 : n4 - 10 < n3 := by omega
  have g1 : ¬(n5 - 10 < n1) := by omega
  have g2 : ¬(n5 - 10 < n2) := by omega
  have g3 : ¬(n5 - 10 < n3) := by omega
  refine ⟨?_, ?_, ?_, ?_, ?_⟩ <;>
    simp [check_rate_limit, lookupKey, setKey, k1, k2, k3, k4, k5, k6, g1, g2, g3]

/-- Witness for C3: key "login:1.2.3.4", four calls at time 0 and a fifth at
time 11. -/
theorem check_rate_limit_three_per_ten_witness :
    ((0 : Int) ≤ 0 ∧ (0 : Int) ≤ 0 ∧ (0 : Int) ≤ 0 ∧ (0 : Int) < 0 + 10 ∧
      (0 : Int) + 10 < 11) ∧
    (check_rate_limit [] "login:1.2.3.4" 3 10 0 = (true, [("login:1.2.3.4", [0])]) ∧
      check_rate_limit [("login:1.2.3.4", [0])] "login:1.2.3.4" 3 10 0 =
        (true, [("login:1.2.3.4", [0, 0])]) ∧
      check_rate_limit [("login:1.2.3.4", [0, 0])] "login:1.2.3.4" 3 10 0 =
        (true, [("login:1.2.3.4", [0, 0, 0])]) ∧
      check_rate_limit [("login:1.2.3.4", [0, 0, 0])] "login:1.2.3.4" 3 10 0 =
        (false, [("login:1.2.3.4", [0, 0, 0])]) ∧
      (check_rate_limit [("login:1.2.3.4", [0, 0, 0])] "login:1.2.3.4" 3 10 11).1 =
        true) :=
  ⟨by norm_num,
    check_rate_limit_three_per_ten "login:1.2.3.4" 0 0 0 0 11
      le_rfl le_rfl le_rfl (by norm_num) (by norm_num)⟩

/-- Claim C4 (amended): `get_retry_after` returns 0 for a key with no
recorded attempts; for a key with retained attempts it returns
`max 0 (oldest + 900 - now)` — a hardcoded 900-second window, whatever window
the key's admission checks actually used (here an admission recorded under an
arbitrary window `w`). -/
theorem get_retry_after_uses_fixed_900 (key : String) (m : Nat) (w t now : Int)
    (hm : 0 < m) :
    get_retry_after [] key now = 0 ∧
    get_retry_after (check_rate_limit [] key m w t).2 key now =
      max 0 (t + 900 - now) := by
  constructor
  · rfl
  · have e : (check_rate_limit [] key m w t).2 = [(key, [t])] := by
      simp [check_rate_limit, lookupKey, setKey, hm]
    rw [e]
    simp [get_retry_after, lookupKey]

/-- Witness for C4: after one admission under window 10 at time 0,
`get_retry_after` at time 0 reports 900 seconds. -/
theorem get_retry_after_uses_fixed_900_witness :
    (0 : Nat) < 3 ∧
    (get_retry_after [] "k" 0 = 0 ∧
      get_retry_after (check_rate_limit [] "k" 3 10 0).2 "k" 0 =
        max 0 (0 + 900 - 0)) :=
  ⟨by norm_num, get_retry_after_uses_fixed_900 "k" 3 10 0 0 (by norm_num)⟩

/-- Counterexample to C4 as stated: a key whose only admission check used
`window_seconds = 10` (at time 0) should, per the claim, report
`oldest + 10 - now = 10` seconds at time 0; the code reports 900. -/
theorem get_retry_after_ignores_key_window :
    get_retry_after (check_rate_limit [] "k" 3 10 0).2 "k" 0 = 900 ∧
    (900 : Int) ≠ 0 + 10 - 0 := by
  exact ⟨rfl, by norm_num⟩

/-- Claim C10: under a fixed policy (`max_attempts = m`, fixed window), any
sequence of admission checks starting from an empty limiter leaves at most
`m` retained timestamps for the key: admitted calls append only below the
limit, and denied calls and pruning never grow the list. -/
theorem run_checks_retained_le_max (m : Nat) (w : Int) (key : String)
    (times : List Int) (_hm : 1 ≤ m) :
    ((lookupKey (run_checks m w key times []) key).getD []).length ≤ m := by
  suffices h : ∀ (ts : List Int) (st : List (String × List Int)),
      ((lookupKey st key).getD []).length ≤ m →
      ((lookupKey (run_checks m w key ts st) key).getD []).length ≤ m by
    exact h times [] (by simp [lookupKey])
  intro ts
  induction ts with
  | nil => intro st h; simpa [run_checks] using h
  | cons now rest ih =>
    intro st h
    rw [run_checks]
    apply ih
    unfold check_rate_limit
    have hp : (((lookupKey st key).getD []).filter
        (fun t => decide (now - w < t))).length ≤
        ((lookupKey st key).getD []).length := List.length_filter_le _ _
    by_cases hc : (((lookupKey st key).getD []).filter
        (fun t => decide (now - w < t))).length < m
    · simp only [if_pos hc, lookupKey_setKey_self, Option.getD_some,
        List.length_append, List.length_cons, List.length_nil]
      omega
    · simp only [if_neg hc, lookupKey_setKey_self, Option.getD_some]
      omega

/-- Witness for C10: five calls under the 3-per-10-seconds policy retain at
most 3 timestamps. -/
theorem run_checks_retained_le_max_witness :
    (1 : Nat) ≤ 3 ∧
    ((lookupKey (run_checks 3 10 "k" [0, 1, 2, 3, 11] []) "k").getD []).length ≤ 3 :=
  ⟨by norm_num, run_checks_retained_le_max 3 10 "k" [0, 1, 2, 3, 11] (by norm_num)⟩

/-- Claim C5 (amended): a token minted as a refresh token never validates as
an access token, and a token minted as an access token never validates as a
refresh token (each fails signature verification under the other context's
secret, and carries the wrong `type` claim besides).  Both failures are 401
Unauthorized, but the two decode functions raise different response details:
"Could not validate credentials" on the access side and "Invalid refresh
token" on the refresh side — the status codes agree, the details do not. -/
theorem cross_decode_fails (sub : String) (d1 d2 : Option Int)
    (n1 n2 now : Int) :
    decode_access_token (create_refresh_token sub d1 n1) now =
      .error credentialsError ∧
    decode_refresh_token (create_access_token sub d2 n2) now =
      .error invalidRefreshError ∧
    credentialsError.status = 401 ∧ invalidRefreshError.status = 401 := by
  have hrs : REFRESH_TOKEN_SECRET ≠ SECRET_KEY := by decide
  have hsr : SECRET_KEY ≠ REFRESH_TOKEN_SECRET := by decide
  refine ⟨?_, ?_, rfl, rfl⟩
  · simp [decode_access_token, create_refresh_token, jwt_encode, jwt_decode, hrs]
  · simp [decode_refresh_token, create_access_token, jwt_encode, jwt_decode, hsr]

/-- Counterexample to C5 as stated: cross-validating concrete tokens minted
at time 0 fails on both sides with status 401, but the two response details
are different strings, so the two failures are not externally identical. -/
theorem cross_decode_details_differ :
    decode_access_token (create_refresh_token "1" none 0) 0 =
      .error credentialsError ∧
    decode_refresh_token (create_access_token "1" none 0) 0 =
      .error invalidRefreshError ∧
    credentialsError.detail ≠ invalidRefreshError.detail := by
  refine ⟨?_, ?_, by decide⟩
  · have hrs : REFRESH_TOKEN_SECRET ≠ SECRET_KEY := by decide
    simp [decode_access_token, create_refresh_token, jwt_encode, jwt_decode, hrs]
  · have hsr : SECRET_KEY ≠ REFRESH_TOKEN_SECRET := by decide
    simp [decode_refresh_token, create_access_token, jwt_encode, jwt_decode, hsr]

/-- Claim C9: the optional-authentication dependency is a total function (the
`except HTTPException` handler turns every authentication failure into
`None`, and the embedded pipeline raises nothing else), and it returns
`some u` exactly when a token is present (cookie first, header fallback),
decodes as a valid unexpired access token, carries a `sub` claim that parses
as an identifier, and that identifier resolves to the user `u` in the
database; in every other case — no token, malformed token, expired token,
wrong-type token, unparseable or unknown subject — it returns `none`. -/
theorem get_current_user_optional_characterization
    (ct ht : Option TokenStr) (users : List UserRec) (now : Int) (u : UserRec) :
    get_current_user_optional ct ht users now = some u ↔
      ∃ tok payload s uid,
        effective_token ct ht = some tok ∧
        decode_access_token tok now = .ok payload ∧
        payload.sub = some s ∧
        s.toNat? = some uid ∧
        users.find? (fun x => decide (x.id = uid)) = some u := by
  unfold get_current_user_optional get_current_user
  cases heff : effective_token ct ht with
  | none => simp [heff]
  | some tok =>
    cases hdec : decode_access_token tok now with
    | error e => simp [hdec]
    | ok payload =>
      cases hsub : payload.sub with
      | none => simp [hdec, hsub]
      | some s =>
        cases hnat : s.toNat? with
        | none => simp [hdec, hsub, hnat]
        | some uid =>
          cases hfind : users.find? (fun x => decide (x.id = uid)) with
          | none => simp [hdec, hsub, hnat, hfind]
          | some u0 =>
            simp only [hdec, hsub, hnat, hfind, Option.some.injEq]
            constructor
            · rintro rfl
              exact ⟨tok, payload, s, uid, rfl, hdec, hsub, hnat, hfind⟩
            · rintro ⟨tok', payload', s', uid', rfl, hdec', hsub', hnat', hfind'⟩
              injection hdec.symm.trans hdec' with hp
              subst hp
              injection hsub.symm.trans hsub' with hs
              subst hs
              injection hnat.symm.trans hnat' with hu
              subst hu
              injection hfind.symm.trans hfind'

end PhaseTodo
